import Mathlib

/-!
Verification development for the metadata-sanitization pipeline of a
browser-based privacy tool (source: src/services/metadataProcessor.ts and
the GeminiService in the bundled application sources).

The embedding is shallow: the TypeScript classes become Lean namespaces,
the browser and network effects (FileReader, Image decode, canvas toBlob,
the two Gemini round trips, Date.now(), Math.random()) become fields of an
explicit environment record `Env`, and JavaScript truthiness of the
`x || y` idiom on strings is modelled by the `jsOr` helpers.  ISO-8601
date strings are modelled by `DateV`: dates the code itself produces from
an epoch-milliseconds value are `DateV.ms t` (toISOString is injective on
times), and date strings coming back from the AI endpoint are `DateV.str s`.
Epoch times are rationals so that `Date.now() - Math.random() * 31536000000`
is exact.  Fallible code returns `Except String _` carrying the source's
error-message strings.
-/

namespace Shield

/-- A risk level as in the source union type 'low' | 'medium' | 'high'. -/
inductive RiskLevel where
  | low
  | medium
  | high
deriving DecidableEq, Repr

/-- A date value: either an epoch-milliseconds time the code converted via
toISOString (injective, so equality of times models equality of the ISO
strings), or a raw string received from the AI endpoint. -/
inductive DateV where
  | ms (t : ℚ)
  | str (s : String)
deriving DecidableEq, Repr

/-- JavaScript truthiness of a date string: an ISO string produced from a
time is nonempty hence truthy; a raw string is truthy iff nonempty. -/
def DateV.truthy : DateV → Bool
  | .ms _ => true
  | .str s => !(s == "")

/-- A value stored in the open technicalData mapping (Record of string to any
in the source; only strings and booleans are ever written). -/
inductive TDVal where
  | str (s : String)
  | bool (b : Bool)
deriving DecidableEq, Repr

/-- The open technicalData mapping of the source (Record of string to any). -/
def TechData := String → Option TDVal

/-- A browser File handle: name, MIME type, byte size, lastModified epoch
milliseconds, and the underlying bytes. -/
structure File where
  name : String
  type : String
  size : Nat
  lastModified : ℚ
  bytes : List Nat
deriving DecidableEq, Repr

/-- The ProcessOptions interface from the source types. -/
structure ProcessOptions where
  safeMode : Bool
  removeGPS : Bool
  changeDates : Bool
  generateFakeData : Bool
  preserveQuality : Bool
deriving DecidableEq, Repr

/-- The fileType field of FileMetadata: 'image' | 'video'. -/
inductive FileType where
  | image
  | video
deriving DecidableEq, Repr

/-- The FileMetadata interface from the source types; optional fields are
Options defaulting to none (absent). -/
structure FileMetadata where
  filename : String
  type : String
  originalSize : Nat
  processedSize : Option Nat := none
  sensitiveData : Option (List String) := none
  recommendations : Option (List String) := none
  format : Option String := none
  creationDate : Option DateV := none
  modificationDate : Option DateV := none
  lastModified : Option ℚ := none
  device : Option String := none
  location : Option String := none
  hasGPS : Option Bool := none
  hasFaces : Option Bool := none
  hasSensitiveData : Option Bool := none
  safeModeApplied : Option Bool := none
  generatedFakeData : Option Bool := none
  fileType : Option FileType := none
  videoProcessingNote : Option String := none
  technicalData : Option TechData := none
  riskLevel : Option RiskLevel := none

/-- The status union of ProcessedFile. -/
inductive Status where
  | completed
  | failed
  | processing
  | pending
deriving DecidableEq, Repr

/-- The ProcessedFile interface from the source types. -/
structure ProcessedFile where
  id : String
  originalFile : File
  processedFile : Option File := none
  metadata : FileMetadata
  error : Option String := none
  status : Status
  processedAt : Option DateV := none
  progress : Option Nat := none

/-- JavaScript String.startsWith, as prefix of the character sequence. -/
def strStartsWith (s p : String) : Bool :=
  s.data.take p.data.length == p.data

/-- JavaScript `x || y` where x is an optional string and y a plain string:
undefined and the empty string are falsy. -/
def jsOr (x : Option String) (y : String) : String :=
  match x with
  | some s => if s = "" then y else s
  | none => y

/-- JavaScript `x || y` where both sides are optional strings (y is always
present at the call sites, but typed optional in the record). -/
def jsOrOpt (x : Option String) (y : Option String) : Option String :=
  match x with
  | some s => if s = "" then y else some s
  | none => y

/-- JavaScript `x || y` on date values, with date-string truthiness. -/
def jsOrDate (x : Option DateV) (y : Option DateV) : Option DateV :=
  match x with
  | some d => if d.truthy then some d else y
  | none => y

/-- The format tag `file.type.split('/')[1]?.toUpperCase() || fallback`
(the uppercase of the empty string is falsy, so it also falls back). -/
def formatTag (t fallback : String) : String :=
  match (t.splitOn "/")[1]? with
  | some s => if s.toUpper = "" then fallback else s.toUpper
  | none => fallback

/-- The suggestedFakeMetadata sub-object of a Gemini analysis. -/
structure FakeMeta where
  device : Option String := none
  location : Option String := none
  creationDate : Option DateV := none
  cameraModel : Option String := none
deriving DecidableEq, Repr

/-- The GeminiAnalysis interface of the source's GeminiService. -/
structure GeminiAnalysis where
  sensitiveData : List String
  recommendations : List String
  deviceInfo : Option String := none
  locationInfo : Option String := none
  riskLevel : RiskLevel
  confidence : ℚ
  suggestedFakeMetadata : Option FakeMeta := none
deriving DecidableEq, Repr

/-- The parsed JSON of a generateFakeMetadata response (all fields optional
under the response schema), or the analogous partial metadata record the
method returns. -/
structure FakePartial where
  device : Option String := none
  location : Option String := none
  creationDate : Option DateV := none
  technicalData : Option TechData := none
  generatedFakeData : Option Bool := none

namespace GeminiService

/-- GeminiService.simulateAnalysis: the fixed local fallback report
(riskLevel medium, confidence 0.7, two sensitive findings, three
recommendations); `now` stands for Date.now() at the call. -/
def simulateAnalysis (file : File) (now : ℚ) : GeminiAnalysis :=
  let isImage := strStartsWith file.type "image/"
  { sensitiveData := ["بصمة اسم الملف تحتوي على أرقام قد تدل على التاريخ",
      if isImage then "احتمالية وجود بيانات EXIF" else "بيانات الحاوية التقنية"],
    recommendations := ["إزالة البيانات الوصفية فوراً",
      "تغيير اسم الملف ليكون عشوائياً",
      "استخدام التمويه الجغرافي"],
    riskLevel := .medium,
    confidence := (7 : ℚ) / 10,
    suggestedFakeMetadata := some
      { device := some "iPhone 14 Pro",
        location := some "Stockholm, Sweden",
        creationDate := some (.ms (now - 31536000000)) } }

/-- GeminiService.analyzeFile: the transport argument is the outcome of the
generateContent round trip, where `none` models any failure mode the
try/catch absorbs (transport error, empty response text, JSON-parse or
schema failure) and `some a` the successfully parsed analysis.  The method
is total: it never propagates an error, falling back to simulateAnalysis. -/
def analyzeFile (file : File) (now : ℚ) (transport : Option GeminiAnalysis) :
    GeminiAnalysis :=
  match transport with
  | some a => a
  | none => simulateAnalysis file now

/-- GeminiService.generateFakeMetadata: the transport argument is the
outcome of the round trip: `none` models a thrown failure (caught, static
decoy returned), `some none` an empty response text (returns the empty
partial), `some (some p)` a parsed response whose fields are copied with
generatedFakeData set to true.  Total: never fails outward. -/
def generateFakeMetadata (transport : Option (Option FakePartial)) :
    FakePartial :=
  match transport with
  | some (some p) =>
      { device := p.device, location := p.location,
        creationDate := p.creationDate, technicalData := p.technicalData,
        generatedFakeData := some true }
  | some none => {}
  | none =>
      { device := some "Shielded Forensic Hardware",
        location := some "Protected Network",
        generatedFakeData := some true }

end GeminiService

/-- The environment of one processing call: the browser and network effects
the source awaits.  readOk is the FileReader outcome, decode the Image
decode outcome (dimensions, or failure), canvasOk whether the 2d context is
available, analyzeTransport and fakeTransport the two Gemini round trips,
toBlob the canvas re-encoder (by MIME type and quality), now Date.now(),
rand the Math.random() draw used by changeDates, idTag the unique-id
suffix. -/
structure Env where
  readOk : Bool
  canvasOk : Bool
  decode : Option (Nat × Nat)
  analyzeTransport : Option GeminiAnalysis
  fakeTransport : Option (Option FakePartial)
  toBlob : String → ℚ → Option (List Nat)
  now : ℚ
  rand : ℚ
  idTag : String

namespace MetadataProcessor

/-- The quality parameter of the re-encode:
`options.preserveQuality ? 0.95 : 0.8`. -/
def imageQuality (options : ProcessOptions) : ℚ :=
  if options.preserveQuality then (95 : ℚ) / 100 else (8 : ℚ) / 10

/-- The base FileMetadata the image path builds from the file attributes and
the AI report, before any option overlay. -/
def baseImageMeta (file : File) (aiReport : GeminiAnalysis) (now : ℚ) :
    FileMetadata :=
  { filename := file.name,
    type := file.type,
    originalSize := file.size,
    format := some (formatTag file.type "IMG"),
    creationDate := some (.ms file.lastModified),
    modificationDate := some (.ms now),
    lastModified := some file.lastModified,
    sensitiveData := some aiReport.sensitiveData,
    recommendations := some aiReport.recommendations,
    riskLevel := some aiReport.riskLevel,
    device := some (jsOr aiReport.deviceInfo "Original Trace Detected"),
    location := some (jsOr aiReport.locationInfo "Potential Geotag"),
    fileType := some .image }

/-- The `if (options.safeMode)` overlay of the image path. -/
def applySafeMode (options : ProcessOptions) (md : FileMetadata) :
    FileMetadata :=
  if options.safeMode then
    { md with
      safeModeApplied := some true,
      sensitiveData := some [],
      riskLevel := some .low,
      device := some "Sanitized Device" }
  else md

/-- The `if (options.removeGPS)` overlay of the image path. -/
def applyRemoveGPS (options : ProcessOptions) (md : FileMetadata) :
    FileMetadata :=
  if options.removeGPS then
    { md with
      hasGPS := some false,
      location := some "Stripped" }
  else md

/-- The `if (options.generateFakeData)` overlay of the image path: fetch the
decoy and overwrite device, location, creationDate (JavaScript || on each),
set generatedFakeData, and assign technicalData from the decoy. -/
def applyFakeData (options : ProcessOptions) (env : Env) (md : FileMetadata) :
    FileMetadata :=
  if options.generateFakeData then
    let fake := GeminiService.generateFakeMetadata env.fakeTransport
    { md with
      device := jsOrOpt fake.device md.device,
      location := jsOrOpt fake.location md.location,
      creationDate := jsOrDate fake.creationDate md.creationDate,
      generatedFakeData := some true,
      technicalData := fake.technicalData }
  else md

/-- The `if (options.changeDates)` overlay of the image path: creationDate
becomes Date.now() - Math.random() * 31536000000 and modificationDate the
current time. -/
def applyChangeDates (options : ProcessOptions) (env : Env)
    (md : FileMetadata) : FileMetadata :=
  if options.changeDates then
    { md with
      creationDate := some (.ms (env.now - env.rand * 31536000000)),
      modificationDate := some (.ms env.now) }
  else md

/-- The full option overlay sequence of the image path, in source order:
safeMode, removeGPS, generateFakeData, changeDates over the base metadata. -/
def imageMeta (file : File) (options : ProcessOptions) (env : Env) :
    FileMetadata :=
  applyChangeDates options env
    (applyFakeData options env
      (applyRemoveGPS options
        (applySafeMode options
          (baseImageMeta file
            (GeminiService.analyzeFile file env.now env.analyzeTransport)
            env.now))))

/-- The technicalData written after the encode completes: the spread of the
current mapping under the four engine fields (engine, binaryStripped,
fingerprintObfuscated, resolution), later keys winning. -/
def finalTechData (base : Option TechData) (w h : Nat) : TechData :=
  fun k =>
    if k = "engine" then some (.str "ShieldEngine v4 (Canvas Redraw)")
    else if k = "binaryStripped" then some (.bool true)
    else if k = "fingerprintObfuscated" then some (.bool true)
    else if k = "resolution" then some (.str (toString w ++ "x" ++ toString h))
    else match base with
      | some f => f k
      | none => none

/-- The completed ProcessedFile the image path resolves with once the blob
is available: blob-sized output file named shielded_ plus the original name
(lastModified now iff changeDates), metadata finished with processedSize
and the engine technicalData fields. -/
def imageResult (file : File) (options : ProcessOptions) (env : Env)
    (w h : Nat) (blob : List Nat) : ProcessedFile :=
  let md := imageMeta file options env
  { id := "img_" ++ env.idTag,
    originalFile := file,
    processedFile := some
      { name := "shielded_" ++ file.name,
        type := file.type,
        size := blob.length,
        lastModified :=
          if options.changeDates then env.now else file.lastModified,
        bytes := blob },
    metadata :=
      { md with
        processedSize := some blob.length,
        technicalData := some (finalTechData md.technicalData w h) },
    status := .completed,
    processedAt := some (.ms env.now) }

/-- MetadataProcessor.processImage: read the file (reject on read error),
decode it (reject on decode error), require the canvas context, analyze,
build the metadata with the option overlays, re-encode at imageQuality
(reject if toBlob yields no blob), then finish the report and resolve a
completed ProcessedFile whose output file is the re-encoded blob named
shielded_ plus the original name. -/
def processImage (file : File) (options : ProcessOptions) (env : Env) :
    Except String ProcessedFile :=
  if !env.readOk then .error "File reading error"
  else match env.decode with
  | none => .error "Media decode failure"
  | some (w, h) =>
    if !env.canvasOk then .error "Canvas engine unavailable"
    else match env.toBlob file.type (imageQuality options) with
    | none => .error "Fingerprint stripping failed"
    | some blob => .ok (imageResult file options env w h blob)

/-- The fixed technicalData descriptor the video path writes. -/
def videoTechData : TechData :=
  fun k =>
    if k = "method" then some (.str "Header-Level Redaction")
    else if k = "engine" then some (.str "ShieldEngine Video v1")
    else if k = "containerSafe" then some (.bool true)
    else none

/-- MetadataProcessor.processVideo: analyze, build the report (processedSize
equals the original size, an appended header-scrubbing recommendation,
location 'Likely Embedded'), overlay the decoy device and location when
generateFakeData, copy the bytes verbatim into shielded_ plus the original
name, write the fixed technicalData descriptor, and return completed.
Total: the video path rejects on nothing. -/
def processVideo (file : File) (options : ProcessOptions) (env : Env) :
    ProcessedFile :=
  let aiReport := GeminiService.analyzeFile file env.now env.analyzeTransport
  let md0 : FileMetadata :=
    { filename := file.name,
      type := file.type,
      originalSize := file.size,
      processedSize := some file.size,
      format := some (formatTag file.type "VID"),
      creationDate := some (.ms file.lastModified),
      modificationDate := some (.ms env.now),
      lastModified := some file.lastModified,
      sensitiveData := some aiReport.sensitiveData,
      recommendations := some
        (aiReport.recommendations ++ ["Scrubbing video container headers..."]),
      riskLevel := some aiReport.riskLevel,
      device := some (jsOr aiReport.deviceInfo "Video Footprint Detected"),
      location := some "Likely Embedded",
      fileType := some .video }
  let md1 :=
    if options.generateFakeData then
      let fake := GeminiService.generateFakeMetadata env.fakeTransport
      { md0 with
        device := some (jsOr fake.device "Decoy Device"),
        location := some (jsOr fake.location "Synthetic Location"),
        generatedFakeData := some true }
    else md0
  { id := "vid_" ++ env.idTag,
    originalFile := file,
    processedFile := some
      { name := "shielded_" ++ file.name,
        type := file.type,
        size := file.bytes.length,
        lastModified :=
          if options.changeDates then env.now else file.lastModified,
        bytes := file.bytes },
    metadata := { md1 with technicalData := some videoTechData },
    status := .completed,
    processedAt := some (.ms env.now) }

/-- The per-file dispatch inside the processBatch try block: image MIME
prefix to processImage, video MIME prefix to processVideo, anything else
throws 'Unsupported format'. -/
def runPipeline (file : File) (options : ProcessOptions) (env : Env) :
    Except String ProcessedFile :=
  if strStartsWith file.type "image/" then processImage file options env
  else if strStartsWith file.type "video/" then .ok (processVideo file options env)
  else .error "Unsupported format"

/-- The failed ProcessedFile the catch block pushes: no output file, status
failed, the thrown message as error, and a minimal metadata record. -/
def failedEntry (file : File) (env : Env) (msg : String) : ProcessedFile :=
  { id := "err_" ++ env.idTag,
    originalFile := file,
    metadata :=
      { filename := file.name,
        type := file.type,
        originalSize := file.size },
    status := .failed,
    error := some msg }

/-- One iteration of the processBatch loop: run the pipeline and convert any
thrown error into a failed entry. -/
def processOne (file : File) (options : ProcessOptions) (env : Env) :
    ProcessedFile :=
  match runPipeline file options env with
  | .ok pf => pf
  | .error msg => failedEntry file env msg

/-- MetadataProcessor.processBatch: sequentially process each file (each
with its own effect environment), pushing one result per input in input
order; per-file failures are caught and converted, so the function is total
and never throws. -/
def processBatch (inputs : List (File × Env)) (options : ProcessOptions) :
    List ProcessedFile :=
  inputs.map fun fe => processOne fe.1 options fe.2

end MetadataProcessor

/-! Sample inputs used to instantiate the theorems on concrete data. -/

/-- A sample JPEG input. -/
def sampleJpg : File :=
  { name := "photo.jpg", type := "image/jpeg", size := 4,
    lastModified := 1000, bytes := [1, 2, 3, 4] }

/-- A sample PDF input (unsupported MIME category). -/
def samplePdf : File :=
  { name := "doc.pdf", type := "application/pdf", size := 7,
    lastModified := 1000, bytes := [1] }

/-- A sample MP4 input. -/
def sampleVid : File :=
  { name := "clip.mp4", type := "video/mp4", size := 3,
    lastModified := 500, bytes := [5, 6, 7] }

/-- A sample healthy environment: reads, decodes to 100x50, canvas up,
both AI round trips failing (so the deterministic fallbacks are taken),
re-encoder answering [9, 9] at every quality. -/
def envA : Env :=
  { readOk := true, canvasOk := true, decode := some (100, 50),
    analyzeTransport := none, fakeTransport := none,
    toBlob := fun _ _ => some [9, 9], now := 2000, rand := 1 / 2,
    idTag := "t" }

/-- Options: safeMode and removeGPS on, the rest off except
preserveQuality. -/
def optsSR : ProcessOptions :=
  { safeMode := true, removeGPS := true, changeDates := false,
    generateFakeData := false, preserveQuality := true }

/-- Options: safeMode, removeGPS and generateFakeData on. -/
def optsSRF : ProcessOptions :=
  { safeMode := true, removeGPS := true, changeDates := false,
    generateFakeData := true, preserveQuality := true }

/-- Options: only changeDates on. -/
def optsCD : ProcessOptions :=
  { safeMode := false, removeGPS := false, changeDates := true,
    generateFakeData := false, preserveQuality := false }

/-- Options: everything off. -/
def optsMin : ProcessOptions :=
  { safeMode := false, removeGPS := false, changeDates := false,
    generateFakeData := false, preserveQuality := false }

namespace MetadataProcessor

/-! Helper lemmas about the embedded pipeline. -/

lemma processImage_ok (file : File) (options : ProcessOptions) (env : Env)
    (w h : Nat) (blob : List Nat)
    (hr : env.readOk = true) (hd : env.decode = some (w, h))
    (hc : env.canvasOk = true)
    (hb : env.toBlob file.type (imageQuality options) = some blob) :
    processImage file options env = .ok (imageResult file options env w h blob) := by
  simp [processImage, hr, hd, hc, hb]

lemma imageResult_status (file : File) (options : ProcessOptions) (env : Env)
    (w h : Nat) (blob : List Nat) :
    (imageResult file options env w h blob).status = .completed := rfl

lemma imageResult_location (file : File) (options : ProcessOptions)
    (env : Env) (w h : Nat) (blob : List Nat) :
    (imageResult file options env w h blob).metadata.location =
      (imageMeta file options env).location := rfl

lemma imageResult_creationDate (file : File) (options : ProcessOptions)
    (env : Env) (w h : Nat) (blob : List Nat) :
    (imageResult file options env w h blob).metadata.creationDate =
      (imageMeta file options env).creationDate := rfl

lemma imageResult_modificationDate (file : File) (options : ProcessOptions)
    (env : Env) (w h : Nat) (blob : List Nat) :
    (imageResult file options env w h blob).metadata.modificationDate =
      (imageMeta file options env).modificationDate := rfl

lemma imageResult_processedSize (file : File) (options : ProcessOptions)
    (env : Env) (w h : Nat) (blob : List Nat) :
    (imageResult file options env w h blob).metadata.processedSize =
      some blob.length := rfl

lemma imageResult_technicalData (file : File) (options : ProcessOptions)
    (env : Env) (w h : Nat) (blob : List Nat) :
    (imageResult file options env w h blob).metadata.technicalData =
      some (finalTechData (imageMeta file options env).technicalData w h) := rfl

lemma imageResult_processedFile (file : File) (options : ProcessOptions)
    (env : Env) (w h : Nat) (blob : List Nat) :
    (imageResult file options env w h blob).processedFile = some
      { name := "shielded_" ++ file.name,
        type := file.type,
        size := blob.length,
        lastModified :=
          if options.changeDates then env.now else file.lastModified,
        bytes := blob } := rfl

lemma applySafeMode_location (options : ProcessOptions) (md : FileMetadata) :
    (applySafeMode options md).location = md.location := by
  unfold applySafeMode; split <;> rfl

lemma applySafeMode_creationDate (options : ProcessOptions)
    (md : FileMetadata) :
    (applySafeMode options md).creationDate = md.creationDate := by
  unfold applySafeMode; split <;> rfl

lemma applySafeMode_modificationDate (options : ProcessOptions)
    (md : FileMetadata) :
    (applySafeMode options md).modificationDate = md.modificationDate := by
  unfold applySafeMode; split <;> rfl

lemma applyRemoveGPS_location (options : ProcessOptions) (md : FileMetadata)
    (h : options.removeGPS = true) :
    (applyRemoveGPS options md).location = some "Stripped" := by
  simp [applyRemoveGPS, h]

lemma applyRemoveGPS_creationDate (options : ProcessOptions)
    (md : FileMetadata) :
    (applyRemoveGPS options md).creationDate = md.creationDate := by
  unfold applyRemoveGPS; split <;> rfl

lemma applyRemoveGPS_modificationDate (options : ProcessOptions)
    (md : FileMetadata) :
    (applyRemoveGPS options md).modificationDate = md.modificationDate := by
  unfold applyRemoveGPS; split <;> rfl

lemma applyFakeData_of_off (options : ProcessOptions) (env : Env)
    (md : FileMetadata) (h : options.generateFakeData = false) :
    applyFakeData options env md = md := by
  simp [applyFakeData, h]

lemma applyFakeData_location_of_on (options : ProcessOptions) (env : Env)
    (md : FileMetadata) (h : options.generateFakeData = true) :
    (applyFakeData options env md).location =
      jsOrOpt (GeminiService.generateFakeMetadata env.fakeTransport).location
        md.location := by
  simp [applyFakeData, h]

lemma applyFakeData_modificationDate (options : ProcessOptions) (env : Env)
    (md : FileMetadata) :
    (applyFakeData options env md).modificationDate = md.modificationDate := by
  unfold applyFakeData; split <;> rfl

lemma applyChangeDates_location (options : ProcessOptions) (env : Env)
    (md : FileMetadata) :
    (applyChangeDates options env md).location = md.location := by
  unfold applyChangeDates; split <;> rfl

lemma applyChangeDates_creationDate_of_on (options : ProcessOptions)
    (env : Env) (md : FileMetadata) (h : options.changeDates = true) :
    (applyChangeDates options env md).creationDate =
      some (.ms (env.now - env.rand * 31536000000)) := by
  simp [applyChangeDates, h]

lemma applyChangeDates_modificationDate_of_on (options : ProcessOptions)
    (env : Env) (md : FileMetadata) (h : options.changeDates = true) :
    (applyChangeDates options env md).modificationDate =
      some (.ms env.now) := by
  simp [applyChangeDates, h]

lemma jsOrOpt_of_some (l : String) (y : Option String) (h : l ≠ "") :
    jsOrOpt (some l) y = some l := by
  simp [jsOrOpt, h]

lemma finalTechData_engine (base : Option TechData) (w h : Nat) :
    finalTechData base w h "engine" =
      some (.str "ShieldEngine v4 (Canvas Redraw)") := rfl

lemma finalTechData_binaryStripped (base : Option TechData) (w h : Nat) :
    finalTechData base w h "binaryStripped" = some (.bool true) := rfl

lemma finalTechData_fingerprintObfuscated (base : Option TechData)
    (w h : Nat) :
    finalTechData base w h "fingerprintObfuscated" = some (.bool true) := rfl

lemma finalTechData_resolution (base : Option TechData) (w h : Nat) :
    finalTechData base w h "resolution" =
      some (.str (toString w ++ "x" ++ toString h)) := rfl

end MetadataProcessor

/-! The claims. -/

open MetadataProcessor GeminiService

/-- C2: for every input whose MIME type begins with neither image/ nor
video/, the batch path yields a ProcessedFile with status failed and error
"Unsupported format", with no output file attached, rather than raising to
the caller (processBatch is total). -/
theorem C2_unsupported_format_failed_entry
    (inputs : List (File × Env)) (options : ProcessOptions) (i : Nat)
    (file : File) (env : Env)
    (hmem : inputs[i]? = some (file, env))
    (him : strStartsWith file.type "image/" = false)
    (hvid : strStartsWith file.type "video/" = false) :
    (processBatch inputs options)[i]? =
      some (failedEntry file env "Unsupported format") ∧
    (failedEntry file env "Unsupported format").status = .failed ∧
    (failedEntry file env "Unsupported format").error =
      some "Unsupported format" ∧
    (failedEntry file env "Unsupported format").processedFile = none := by
  refine ⟨?_, rfl, rfl, rfl⟩
  simp [processBatch, List.getElem?_map, hmem, processOne, runPipeline,
    him, hvid]

/-- Witness for C2 at a concrete PDF input. -/
theorem C2_unsupported_format_failed_entry_witness :
    strStartsWith samplePdf.type "image/" = false ∧
    (processBatch [(samplePdf, envA)] optsSR)[0]? =
      some (failedEntry samplePdf envA "Unsupported format") :=
  ⟨by decide,
    (C2_unsupported_format_failed_entry [(samplePdf, envA)] optsSR 0
      samplePdf envA rfl (by decide) (by decide)).1⟩

/-- C3: processBatch returns exactly one ProcessedFile per input, in input
order, with the i-th result a function of the i-th input alone; a pipeline
failure is converted into a failed ProcessedFile carrying the error message
without affecting other inputs, and a pipeline success is returned as is
(processBatch is total, so it never throws). -/
theorem C3_batch_order_and_isolation
    (inputs : List (File × Env)) (options : ProcessOptions) :
    (processBatch inputs options).length = inputs.length ∧
    (∀ (i : Nat) (file : File) (env : Env),
      inputs[i]? = some (file, env) →
      (processBatch inputs options)[i]? =
        some (processOne file options env)) ∧
    (∀ (file : File) (env : Env) (msg : String),
      runPipeline file options env = .error msg →
      processOne file options env = failedEntry file env msg ∧
      (failedEntry file env msg).status = .failed ∧
      (failedEntry file env msg).error = some msg) ∧
    (∀ (file : File) (env : Env) (pf : ProcessedFile),
      runPipeline file options env = .ok pf →
      processOne file options env = pf) := by
  refine ⟨by simp [processBatch], ?_, ?_, ?_⟩
  · intro i file env hmem
    simp [processBatch, List.getElem?_map, hmem]
  · intro file env msg hrun
    exact ⟨by simp [processOne, hrun], rfl, rfl⟩
  · intro file env pf hrun
    simp [processOne, hrun]

/-- Witness for C3 at a concrete mixed batch. -/
theorem C3_batch_order_and_isolation_witness :
    [(sampleJpg, envA), (samplePdf, envA), (sampleVid, envA)][1]? =
      some (samplePdf, envA) ∧
    (processBatch [(sampleJpg, envA), (samplePdf, envA), (sampleVid, envA)]
        optsSR).length = 3 ∧
    (processBatch [(sampleJpg, envA), (samplePdf, envA), (sampleVid, envA)]
        optsSR)[1]? = some (processOne samplePdf optsSR envA) :=
  ⟨rfl,
    (C3_batch_order_and_isolation
      [(sampleJpg, envA), (samplePdf, envA), (sampleVid, envA)] optsSR).1,
    (C3_batch_order_and_isolation
      [(sampleJpg, envA), (samplePdf, envA), (sampleVid, envA)] optsSR).2.1
      1 samplePdf envA rfl⟩

/-- C4: analyzeFile never propagates an error (it is total); on transport
failure, schema-validation failure, or empty response — all modelled by a
none transport outcome — it returns the fixed local fallback report with
riskLevel medium, confidence 0.7, and two fixed sensitive findings. -/
theorem C4_analyze_fallback (file : File) (now : ℚ) :
    analyzeFile file now none = simulateAnalysis file now ∧
    (analyzeFile file now none).riskLevel = .medium ∧
    (analyzeFile file now none).confidence = (7 : ℚ) / 10 ∧
    (analyzeFile file now none).sensitiveData.length = 2 :=
  ⟨rfl, rfl, rfl, rfl⟩

/-- C6: the video path re-encodes nothing: the output file's bytes are a
byte-for-byte copy of the input, the output name is shielded_ plus the
original name, processedSizeBytes equals originalSizeBytes, the report's
recommendations are the Risk Analysis Client's with one appended
header-scrubbing recommendation, and the status is completed. -/
theorem C6_video_verbatim_copy
    (file : File) (options : ProcessOptions) (env : Env) :
    (processVideo file options env).status = .completed ∧
    (processVideo file options env).metadata.originalSize = file.size ∧
    (processVideo file options env).metadata.processedSize = some file.size ∧
    (processVideo file options env).metadata.recommendations =
      some ((analyzeFile file env.now env.analyzeTransport).recommendations
        ++ ["Scrubbing video container headers..."]) ∧
    ∃ out, (processVideo file options env).processedFile = some out ∧
      out.bytes = file.bytes ∧
      out.name = "shielded_" ++ file.name := by
  cases hgf : options.generateFakeData <;>
    refine ⟨rfl, ?_, ?_, ?_, ?_⟩ <;>
      simp [processVideo, hgf]

/-- C9: the decoy-generation operation never fails outward (it is total);
on a thrown failure it returns the fixed static decoy with device
"Shielded Forensic Hardware" and location "Protected Network". -/
theorem C9_decoy_static_fallback :
    generateFakeMetadata none =
      { device := some "Shielded Forensic Hardware",
        location := some "Protected Network",
        generatedFakeData := some true } := rfl

/-- C1: with safeMode and removeGPS on (and no decoy overlay) the report's
location is "Stripped" (removeGPS overrides safeMode's baseline); with
generateFakeData also on, the location is the decoy location the Risk
Analysis Client returned (generateFakeData overrides removeGPS), the
overlays being applied in the fixed order base, AI, safeMode, removeGPS,
generateFakeData, changeDates with the last writer winning. -/
theorem C1_location_overlay_precedence
    (file : File) (env : Env) (options : ProcessOptions)
    (w h : Nat) (blob : List Nat)
    (hr : env.readOk = true) (hd : env.decode = some (w, h))
    (hc : env.canvasOk = true)
    (hb : env.toBlob file.type (imageQuality options) = some blob)
    (hsm : options.safeMode = true) (hgps : options.removeGPS = true) :
    (options.generateFakeData = false →
      ∃ pf, processImage file options env = .ok pf ∧
        pf.metadata.location = some "Stripped") ∧
    (∀ l : String, options.generateFakeData = true →
      (generateFakeMetadata env.fakeTransport).location = some l →
      l ≠ "" →
      ∃ pf, processImage file options env = .ok pf ∧
        pf.metadata.location = some l) := by
  constructor
  · intro hgf
    refine ⟨_, processImage_ok file options env w h blob hr hd hc hb, ?_⟩
    rw [imageResult_location]
    unfold imageMeta
    rw [applyChangeDates_location, applyFakeData_of_off _ _ _ hgf,
      applyRemoveGPS_location _ _ hgps]
  · intro l hgf hl hne
    refine ⟨_, processImage_ok file options env w h blob hr hd hc hb, ?_⟩
    rw [imageResult_location]
    unfold imageMeta
    rw [applyChangeDates_location, applyFakeData_location_of_on _ _ _ hgf,
      hl, jsOrOpt_of_some _ _ hne]

/-- Witness for C1 at a concrete JPEG: with the decoy transport failing,
the static decoy's location "Protected Network" wins over "Stripped". -/
theorem C1_location_overlay_precedence_witness :
    optsSRF.generateFakeData = true ∧
    (generateFakeMetadata envA.fakeTransport).location =
      some "Protected Network" ∧
    (∃ pf, processImage sampleJpg optsSRF envA = .ok pf ∧
      pf.metadata.location = some "Protected Network") :=
  ⟨rfl, rfl,
    (C1_location_overlay_precedence sampleJpg envA optsSRF 100 50 [9, 9]
      rfl rfl rfl rfl rfl rfl).2 "Protected Network" rfl rfl (by decide)⟩

/-- C5: every image input that decodes and re-encodes successfully yields
status completed, processedSizeBytes equal to the output byte length, and
technicalData carrying engine, binaryStripped true, fingerprintObfuscated
true, and resolution "WxH"; these engine fields are merged over any decoy
technicalData last (the statement holds for every decoy transport outcome
and option configuration), so a decoy overlay can never erase them. -/
theorem C5_image_completed_engine_fields
    (file : File) (env : Env) (options : ProcessOptions)
    (w h : Nat) (blob : List Nat)
    (hr : env.readOk = true) (hd : env.decode = some (w, h))
    (hc : env.canvasOk = true)
    (hb : env.toBlob file.type (imageQuality options) = some blob) :
    ∃ pf, processImage file options env = .ok pf ∧
      pf.status = .completed ∧
      pf.metadata.processedSize = some blob.length ∧
      ∃ td, pf.metadata.technicalData = some td ∧
        td "engine" = some (.str "ShieldEngine v4 (Canvas Redraw)") ∧
        td "binaryStripped" = some (.bool true) ∧
        td "fingerprintObfuscated" = some (.bool true) ∧
        td "resolution" = some (.str (toString w ++ "x" ++ toString h)) := by
  refine ⟨_, processImage_ok file options env w h blob hr hd hc hb,
    imageResult_status file options env w h blob,
    imageResult_processedSize file options env w h blob,
    _, imageResult_technicalData file options env w h blob,
    ?_, ?_, ?_, ?_⟩
  · exact finalTechData_engine _ w h
  · exact finalTechData_binaryStripped _ w h
  · exact finalTechData_fingerprintObfuscated _ w h
  · exact finalTechData_resolution _ w h

/-- Witness for C5 at a concrete JPEG with decoy transport on (the decoy
overlay cannot erase the engine fields). -/
theorem C5_image_completed_engine_fields_witness :
    envA.toBlob sampleJpg.type (imageQuality optsSRF) = some [9, 9] ∧
    (∃ pf, processImage sampleJpg optsSRF envA = .ok pf ∧
      pf.status = .completed ∧
      pf.metadata.processedSize = some ([9, 9] : List Nat).length ∧
      ∃ td, pf.metadata.technicalData = some td ∧
        td "engine" = some (.str "ShieldEngine v4 (Canvas Redraw)") ∧
        td "binaryStripped" = some (.bool true) ∧
        td "fingerprintObfuscated" = some (.bool true) ∧
        td "resolution" = some (.str (toString 100 ++ "x" ++ toString 50))) :=
  ⟨rfl, C5_image_completed_engine_fields sampleJpg envA optsSRF 100 50
    [9, 9] rfl rfl rfl rfl⟩

/-- C7: with changeDates on, the report's creationDate is overwritten with
now minus a uniform draw from 365 days of milliseconds (hence lies in the
365 days preceding now) and modificationDate with now, regardless of all
other overlays (changeDates is applied last); the output file's
lastModified is now when changeDates is on and the original input's
lastModified otherwise. -/
theorem C7_changeDates_final_authority
    (file : File) (env : Env) (options : ProcessOptions)
    (w h : Nat) (blob : List Nat)
    (hr : env.readOk = true) (hd : env.decode = some (w, h))
    (hc : env.canvasOk = true)
    (hb : env.toBlob file.type (imageQuality options) = some blob)
    (h0 : 0 ≤ env.rand) (h1 : env.rand < 1) :
    (options.changeDates = true →
      ∃ pf, processImage file options env = .ok pf ∧
        pf.metadata.creationDate =
          some (.ms (env.now - env.rand * 31536000000)) ∧
        env.now - 31536000000 < env.now - env.rand * 31536000000 ∧
        env.now - env.rand * 31536000000 ≤ env.now ∧
        pf.metadata.modificationDate = some (.ms env.now) ∧
        ∃ out, pf.processedFile = some out ∧
          out.lastModified = env.now) ∧
    (options.changeDates = false →
      ∃ pf, processImage file options env = .ok pf ∧
        ∃ out, pf.processedFile = some out ∧
          out.lastModified = file.lastModified) := by
  constructor
  · intro hcd
    refine ⟨_, processImage_ok file options env w h blob hr hd hc hb,
      ?_, by linarith, by linarith, ?_, ?_⟩
    · rw [imageResult_creationDate]
      unfold imageMeta
      exact applyChangeDates_creationDate_of_on _ _ _ hcd
    · rw [imageResult_modificationDate]
      unfold imageMeta
      exact applyChangeDates_modificationDate_of_on _ _ _ hcd
    · refine ⟨_, imageResult_processedFile file options env w h blob, ?_⟩
      simp [hcd]
  · intro hcd
    refine ⟨_, processImage_ok file options env w h blob hr hd hc hb,
      _, imageResult_processedFile file options env w h blob, ?_⟩
    simp [hcd]

/-- Witness for C7 at a concrete JPEG with changeDates on and the random
draw one half. -/
theorem C7_changeDates_final_authority_witness :
    (0 : ℚ) ≤ envA.rand ∧ envA.rand < 1 ∧ optsCD.changeDates = true ∧
    (∃ pf, processImage sampleJpg optsCD envA = .ok pf ∧
      pf.metadata.creationDate =
        some (.ms (envA.now - envA.rand * 31536000000)) ∧
      envA.now - 31536000000 < envA.now - envA.rand * 31536000000 ∧
      envA.now - envA.rand * 31536000000 ≤ envA.now ∧
      pf.metadata.modificationDate = some (.ms envA.now) ∧
      ∃ out, pf.processedFile = some out ∧
        out.lastModified = envA.now) :=
  ⟨by norm_num [envA], by norm_num [envA], rfl,
    (C7_changeDates_final_authority sampleJpg envA optsCD 100 50 [9, 9]
      rfl rfl rfl rfl (by norm_num [envA]) (by norm_num [envA])).1 rfl⟩

/-- C8: the re-encode quality passed to the encoder is exactly 0.95 when
preserveQuality is on and exactly 0.80 otherwise: any two encoders that
agree at that one quality (for the file's MIME type) make processImage
produce identical results, i.e. the encoder is consulted only at that
quality. -/
theorem C8_encoder_quality
    (file : File) (options : ProcessOptions) (env : Env)
    (tb2 : String → ℚ → Option (List Nat))
    (hq : tb2 file.type
        (if options.preserveQuality then (95 : ℚ) / 100 else (8 : ℚ) / 10)
      = env.toBlob file.type
        (if options.preserveQuality then (95 : ℚ) / 100 else (8 : ℚ) / 10)) :
    processImage file options { env with toBlob := tb2 } =
      processImage file options env := by
  have h : tb2 file.type (imageQuality options)
      = env.toBlob file.type (imageQuality options) := hq
  cases env with
  | mk r c d a f tb n rd i =>
    simp only [processImage] at h ⊢
    rw [h]
    rfl

/-- Witness for C8 at a concrete JPEG and an encoder agreeing with envA's
at quality 0.95. -/
theorem C8_encoder_quality_witness :
    ((fun _ _ => some [9, 9]) : String → ℚ → Option (List Nat))
        sampleJpg.type
        (if optsSR.preserveQuality then (95 : ℚ) / 100 else (8 : ℚ) / 10)
      = envA.toBlob sampleJpg.type
        (if optsSR.preserveQuality then (95 : ℚ) / 100 else (8 : ℚ) / 10) ∧
    processImage sampleJpg optsSR
        { envA with toBlob := fun _ _ => some [9, 9] } =
      processImage sampleJpg optsSR envA :=
  ⟨rfl, C8_encoder_quality sampleJpg optsSR envA (fun _ _ => some [9, 9]) rfl⟩

/-- C10: on the video path the safeMode, removeGPS and changeDates options
have no effect on the report: the metadata is unchanged by them (it depends
only on generateFakeData), safeModeApplied and hasGPS are never set, the
sensitive findings and risk level are exactly the Risk Analysis Client's,
the creationDate stays the file's own (never randomized), and only
generateFakeData alters the report's device and location, the location
defaulting to the fixed string "Likely Embedded". -/
theorem C10_video_option_frame
    (file : File) (env : Env) (o1 o2 : ProcessOptions)
    (hgf : o1.generateFakeData = o2.generateFakeData) :
    (processVideo file o1 env).metadata = (processVideo file o2 env).metadata ∧
    (processVideo file o1 env).metadata.safeModeApplied = none ∧
    (processVideo file o1 env).metadata.hasGPS = none ∧
    (processVideo file o1 env).metadata.sensitiveData =
      some (analyzeFile file env.now env.analyzeTransport).sensitiveData ∧
    (processVideo file o1 env).metadata.riskLevel =
      some (analyzeFile file env.now env.analyzeTransport).riskLevel ∧
    (processVideo file o1 env).metadata.creationDate =
      some (.ms file.lastModified) ∧
    (o1.generateFakeData = false →
      (processVideo file o1 env).metadata.location = some "Likely Embedded" ∧
      (processVideo file o1 env).metadata.device =
        some (jsOr (analyzeFile file env.now env.analyzeTransport).deviceInfo
          "Video Footprint Detected")) ∧
    (o1.generateFakeData = true →
      (processVideo file o1 env).metadata.location =
        some (jsOr (generateFakeMetadata env.fakeTransport).location
          "Synthetic Location") ∧
      (processVideo file o1 env).metadata.device =
        some (jsOr (generateFakeMetadata env.fakeTransport).device
          "Decoy Device")) := by
  cases h1 : o1.generateFakeData <;> rw [h1] at hgf
  · refine ⟨?_, ?_, ?_, ?_, ?_, ?_, fun _ => ⟨?_, ?_⟩,
      fun hab => absurd hab (by simp [h1])⟩ <;>
      simp [processVideo, h1, ← hgf]
  · refine ⟨?_, ?_, ?_, ?_, ?_, ?_, fun hab => absurd hab (by simp [h1]),
      fun _ => ⟨?_, ?_⟩⟩ <;>
      simp [processVideo, h1, ← hgf]

/-- Witness for C10: two option records agreeing on generateFakeData give
the same video report. -/
theorem C10_video_option_frame_witness :
    optsSR.generateFakeData = optsMin.generateFakeData ∧
    (processVideo sampleVid optsSR envA).metadata =
      (processVideo sampleVid optsMin envA).metadata ∧
    (processVideo sampleVid optsSR envA).metadata.location =
      some "Likely Embedded" :=
  ⟨rfl,
    (C10_video_option_frame sampleVid envA optsSR optsMin rfl).1,
    ((C10_video_option_frame sampleVid envA optsSR optsMin rfl).2.2.2.2.2.2.1
      rfl).1⟩

end Shield
